import Mathlib

/-!
Verification development for the ymoltinator repository: two Python HTTP API
clients (`ainews_client.py`, `moltbook_client.py`) with a JSON credentials
store.  The Python code is shallowly embedded: JSON values become an inductive
`Json`, the HTTP layer becomes an explicit `transport` function from requests
to responses, the credentials file becomes an explicit `Option Json` value
threaded through the operations, and Python exceptions become explicit result
constructors.  `datetime.now()` is modelled as an explicit `now : String`
parameter.  Console printing (a pure side effect) is not modelled.
-/

set_option maxHeartbeats 1000000

/-- A JSON value, as produced by Python's `json` module: `None`, booleans,
integers, strings, lists and (insertion-ordered) dicts.  Python's `None` and
JSON `null` are the same value (`json.load` maps `null` to `None`), so
`Json.null` models both. -/
inductive Json where
  | null
  | bool (flag : Bool)
  | num (value : Int)
  | str (text : String)
  | arr (elems : List Json)
  | obj (fields : List (String × Json))

/-- Python truthiness (`bool(x)`) of a JSON-representable value: `None`, `False`,
`0`, `""`, `[]` and `{}` are falsy, everything else truthy. -/
def jsonTruthy : Json → Bool
  | .null => false
  | .bool b => b
  | .num n => n != 0
  | .str s => s != ""
  | .arr es => !es.isEmpty
  | .obj ms => !ms.isEmpty

/-- First-match lookup in a JSON object's field list (Python dict keys are
unique, so first match is the only match). -/
def lookupField : List (String × Json) → String → Option Json
  | [], _ => none
  | (k', v) :: rest, k => if k' = k then some v else lookupField rest k

/-- Python `d.get(k)` on a dict value: `none` when the key is absent.
On a non-dict the model returns `none`; call sites that would raise
`AttributeError` in Python match on the `obj` constructor themselves. -/
def jget : Json → String → Option Json
  | .obj fields, k => lookupField fields k
  | _, _ => none

/-- Python `d[k] = v` on a dict's field list: overwrite in place if the key is
present, else append (dict insertion order). -/
def setField : List (String × Json) → String → Json → List (String × Json)
  | [], k, v => [(k, v)]
  | (k', v') :: rest, k, v =>
      if k' = k then (k, v) :: rest else (k', v') :: setField rest k v

/-- Python `d[k] = v`: succeeds on a dict, raises `TypeError` (here `none`) on
any other value. -/
def jset : Json → String → Json → Option Json
  | .obj fields, k, v => some (.obj (setField fields k v))
  | _, _, _ => none

mutual
/-- Python `repr` of a JSON-representable value, used by f-string interpolation
of containers.  Quote-escaping inside `repr` of strings is not reproduced (no
claim inspects it); atoms are exact. -/
def pyRepr : Json → String
  | .null => "None"
  | .bool true => "True"
  | .bool false => "False"
  | .num n => toString n
  | .str s => "'" ++ s ++ "'"
  | .arr es => "[" ++ pyReprList es ++ "]"
  | .obj ms => "\x7b" ++ pyReprObj ms ++ "\x7d"
def pyReprList : List Json → String
  | e :: rest =>
      pyRepr e ++ (if rest.isEmpty then "" else ", " ++ pyReprList rest)
  | [] => ""
def pyReprObj : List (String × Json) → String
  | (k, v) :: rest =>
      "'" ++ k ++ "': " ++ pyRepr v ++
        (if rest.isEmpty then "" else ", " ++ pyReprObj rest)
  | [] => ""
end

/-- Python `str(x)` (f-string interpolation) of a JSON-representable value. -/
def pyStr : Json → String
  | .str s => s
  | j => pyRepr j

/-- An HTTP request as handed to the `requests` library: method, full URL,
header dict, optional `json=` body, `params=` query dict. -/
structure HttpRequest where
  method : String
  url : String
  headers : List (String × Json)
  body : Option Json
  params : List (String × Json)

/-- The body of an HTTP response: either text that decodes as JSON, or text
that makes `response.json()` raise `JSONDecodeError`. -/
inductive HttpBody where
  | jsonBody (j : Json)
  | textBody (t : String)

/-- What the underlying HTTP layer does with one request: delivers a response
with a status code and a body, or raises a `requests.RequestException`
(DNS failure, connection refused, timeout, ...) carrying a message. -/
inductive TransportResult where
  | success (status : Nat) (body : HttpBody)
  | exn (e : String)

/-- A mocked transport returning the same response for every request. -/
def constT (r : TransportResult) : HttpRequest → TransportResult := fun _ => r

/-! ## `ainews_client.py` — `AINewsClient` -/

namespace AINews

def DEFAULT_BASE_URL : String := "https://ymoltinator.com/api"

/-- The environment variables read at construction (`os.environ.get`): a
`some ""` models a variable that is set but empty. -/
structure Env where
  ainews_base_url : Option String
  ainews_api_key : Option String

/-- The client's state after `__init__`.  `api_key` and `journalist_name` are
dynamically typed in Python (either `None` or whatever the caller / response
supplied), so they are `Json` with `Json.null` for `None`. -/
structure Client where
  base_url : String
  api_key : Json
  journalist_name : Json

/-- `AINewsClient.__init__`:
`self.base_url = base_url or os.environ.get("AINEWS_BASE_URL", DEFAULT_BASE_URL)`
and `self.api_key = api_key or os.environ.get("AINEWS_API_KEY")` (Python `or`
keeps the left operand when truthy, else evaluates the right). -/
def init (api_key : Json) (base_url : Option String) (journalist_name : Json)
    (env : Env) : Client :=
  { base_url :=
      match base_url with
      | some s => if s = "" then env.ainews_base_url.getD DEFAULT_BASE_URL else s
      | none => env.ainews_base_url.getD DEFAULT_BASE_URL
    api_key :=
      if jsonTruthy api_key then api_key
      else
        match env.ainews_api_key with
        | some s => Json.str s
        | none => Json.null
    journalist_name := journalist_name }

/-- `AINewsClient._get_headers`: a `Content-Type` header, plus `X-API-Key` when
auth is required and `self.api_key` is truthy. -/
def get_headers (c : Client) (auth_required : Bool) : List (String × Json) :=
  if auth_required && jsonTruthy c.api_key then
    [("Content-Type", Json.str "application/json"), ("X-API-Key", c.api_key)]
  else
    [("Content-Type", Json.str "application/json")]

/-- `AINewsError(message, code, details)`: the fields are arbitrary Python
values (`None` modelled as `Json.null`). -/
structure AINewsErr where
  message : Json
  code : Json
  details : Json

/-- The outcome of one client call: a returned JSON value, a raised
`AINewsError`, or some other uncaught Python exception (e.g. the
`AttributeError` from `data.get(...)` when an error body is not a dict). -/
inductive AResult where
  | ok (data : Json)
  | apiError (e : AINewsErr)
  | pyRaise (e : String)

/-- A client call's result together with the list of HTTP requests it handed
to the transport (for call-count assertions on a mocked transport). -/
structure ReqOut where
  result : AResult
  trace : List HttpRequest

/-- `AINewsClient._request`: build URL and headers, dispatch; `204` becomes the
`{"status": "success"}` sentinel before any decode; a non-JSON body is wrapped
as `{"raw": text}`; a status `>= 400` raises `AINewsError` built from the
body's `error`/`code`/`details` fields (message falls back to `"HTTP <status>"`
when `error` is absent; `data.get` on a non-dict body raises `AttributeError`);
a `requests.RequestException` is wrapped as `AINewsError("Request failed: ...")`.
`headers` is the per-call dict `_request` passes to the session (the session
also carries a constant `User-Agent`, merged by `requests` and inspected by
nothing). -/
def request (c : Client) (method endpoint : String) (auth_required : Bool)
    (body : Option Json) (params : List (String × Json))
    (transport : HttpRequest → TransportResult) : ReqOut :=
  let req : HttpRequest :=
    ⟨method, c.base_url ++ endpoint, get_headers c auth_required, body, params⟩
  match transport req with
  | .exn e =>
      ⟨.apiError ⟨Json.str ("Request failed: " ++ e), Json.null, Json.null⟩, [req]⟩
  | .success status b =>
      if status = 204 then
        ⟨.ok (Json.obj [("status", Json.str "success")]), [req]⟩
      else
        let data : Json :=
          match b with
          | .jsonBody j => j
          | .textBody t => Json.obj [("raw", Json.str t)]
        if 400 ≤ status then
          match data with
          | .obj fields =>
              ⟨.apiError
                ⟨(lookupField fields "error").getD
                    (Json.str ("HTTP " ++ toString status)),
                  (lookupField fields "code").getD Json.null,
                  (lookupField fields "details").getD Json.null⟩, [req]⟩
          | _ => ⟨.pyRaise "AttributeError", [req]⟩
        else
          ⟨.ok data, [req]⟩

/-- `get_stories(page, per_page)`: public GET of `/stories`. -/
def get_stories (c : Client) (page per_page : Int)
    (transport : HttpRequest → TransportResult) : ReqOut :=
  request c "GET" "/stories" false none
    [("page", Json.num page), ("per_page", Json.num per_page)] transport

/-- `get_story(story_id)`: public GET of `/stories/{id}`. -/
def get_story (c : Client) (story_id : String)
    (transport : HttpRequest → TransportResult) : ReqOut :=
  request c "GET" ("/stories/" ++ story_id) false none [] transport

/-- `post_story(title, content, url)`: raises
`AINewsError("Either content or url is required")` before any network call when
both are falsy; otherwise POSTs `/stories` with auth, the payload holding only
the truthy fields. -/
def post_story (c : Client) (title : String) (content url : Json)
    (transport : HttpRequest → TransportResult) : ReqOut :=
  if !jsonTruthy content && !jsonTruthy url then
    ⟨.apiError ⟨Json.str "Either content or url is required", Json.null, Json.null⟩,
      []⟩
  else
    let payload := Json.obj
      (("title", Json.str title) ::
        ((if jsonTruthy content then [("content", content)] else []) ++
          (if jsonTruthy url then [("url", url)] else [])))
    request c "POST" "/stories" true (some payload) [] transport

/-- `upvote_story(story_id)`: public POST of `/stories/{id}/upvote`. -/
def upvote_story (c : Client) (story_id : String)
    (transport : HttpRequest → TransportResult) : ReqOut :=
  request c "POST" ("/stories/" ++ story_id ++ "/upvote") false none [] transport

/-- `health()`: public GET of `/health`. -/
def health (c : Client) (transport : HttpRequest → TransportResult) : ReqOut :=
  request c "GET" "/health" false none [] transport

/-- `twitter_handle.lstrip("@")`: remove every leading `'@'`. -/
def lstripAt (s : String) : String := ⟨s.data.dropWhile (fun c => c == '@')⟩

/-- The outcome of `verify`: call result, credentials file afterwards, and the
requests issued. -/
structure VerifyOut where
  result : AResult
  fs : Option Json
  trace : List HttpRequest

/-- `AINewsClient.verify(twitter_handle, journalist_name, verification_code)`
with `fs` the credentials file (`none` = absent, `some j` = its parsed JSON):
fills the two falsy arguments from the file when it exists, raises when either
is still falsy, POSTs `/journalists/verify` with the handle `lstrip`ped of
`'@'`, and on success rewrites the file (when it exists) with
`verified = True` and the stripped handle (`d[k] = v` on a non-dict document
raises `TypeError`). -/
def verify (c : Client) (twitter_handle : String)
    (journalist_name verification_code : Json) (fs : Option Json)
    (transport : HttpRequest → TransportResult) : VerifyOut :=
  let filled : Json × Json :=
    if !jsonTruthy journalist_name || !jsonTruthy verification_code then
      match fs with
      | some creds =>
          (if jsonTruthy journalist_name then journalist_name
            else (jget creds "journalist_name").getD Json.null,
            if jsonTruthy verification_code then verification_code
            else (jget creds "verification_code").getD Json.null)
      | none => (journalist_name, verification_code)
    else (journalist_name, verification_code)
  let jn := filled.1
  let vc := filled.2
  if !jsonTruthy jn || !jsonTruthy vc then
    ⟨.apiError ⟨Json.str "journalist_name and verification_code are required",
        Json.null, Json.null⟩, fs, []⟩
  else
    let payload := Json.obj
      [("journalist_name", jn), ("verification_code", vc),
        ("twitter_handle", Json.str (lstripAt twitter_handle))]
    match request c "POST" "/journalists/verify" false (some payload) [] transport with
    | ⟨.ok resp, tr⟩ =>
        match fs with
        | some creds =>
            match jset creds "verified" (Json.bool true) with
            | some c1 =>
                match jset c1 "twitter_handle" (Json.str (lstripAt twitter_handle)) with
                | some c2 => ⟨.ok resp, some c2, tr⟩
                | none => ⟨.pyRaise "TypeError", some c1, tr⟩
            | none => ⟨.pyRaise "TypeError", fs, tr⟩
        | none => ⟨.ok resp, none, tr⟩
    | ⟨r, tr⟩ => ⟨r, fs, tr⟩

/-- The outcome of `register`: call result, updated client, credentials file
afterwards, requests issued. -/
structure RegisterOut where
  result : AResult
  client : Client
  fs : Option Json
  trace : List HttpRequest

/-- `AINewsClient.register(name, save_credentials)`: POST
`/journalists/register` without auth; on success adopt `api_key`/`name` from
the response and, when saving is requested and the key is truthy, write the
credentials document built by `_save_credentials` (with `registered_at` the
current time, passed in as `now`). -/
def register (c : Client) (name : String) (save_credentials : Bool)
    (fs : Option Json) (now : String)
    (transport : HttpRequest → TransportResult) : RegisterOut :=
  match request c "POST" "/journalists/register" false
      (some (Json.obj [("name", Json.str name)])) [] transport with
  | ⟨.ok resp, tr⟩ =>
      let api_key := (jget resp "api_key").getD Json.null
      let jname := (jget resp "name").getD Json.null
      let c' : Client := { c with api_key := api_key, journalist_name := jname }
      if save_credentials && jsonTruthy api_key then
        let doc := Json.obj
          [("api_key", api_key),
            ("journalist_name", jname),
            ("journalist_id", (jget resp "id").getD Json.null),
            ("verification_code", (jget resp "verification_code").getD Json.null),
            ("verified", (jget resp "verified").getD (Json.bool false)),
            ("registered_at", Json.str now),
            ("base_url", Json.str c.base_url)]
        ⟨.ok resp, c', some doc, tr⟩
      else
        ⟨.ok resp, c', fs, tr⟩
  | ⟨r, tr⟩ => ⟨r, c, fs, tr⟩

end AINews

/-! ## `moltbook_client.py` -/

namespace Moltbook

def BASE_URL : String := "https://www.moltbook.com/api/v1"

def AGENT_NAME : String := "YmoltinatorNews"

def AGENT_DESCRIPTION : String :=
  "AI journalist for Ymoltinator News (https://ymoltinator.com). Covering the AI agent community - trending discussions, notable posts, and community happenings on Moltbook."

/-- `load_credentials()`: returns the parsed contents of the credentials file
when it exists, else `None`.  `fs` is the file (`none` = absent, `some j` = its
parsed JSON). -/
def load_credentials (fs : Option Json) : Option Json := fs

/-- `get_headers(api_key)`: `Content-Type` plus, when the key is truthy, an
`Authorization: Bearer ...` header built by f-string interpolation. -/
def get_headers (api_key : Option Json) : List (String × Json) :=
  match api_key with
  | some k =>
      if jsonTruthy k then
        [("Content-Type", Json.str "application/json"),
          ("Authorization", Json.str ("Bearer " ++ pyStr k))]
      else [("Content-Type", Json.str "application/json")]
  | none => [("Content-Type", Json.str "application/json")]

/-- The outcome of a moltbook operation: a returned value (`Option Json`, with
`none` for Python's `return None`), or an uncaught Python exception — no
moltbook function has a try/except, so transport faults, `KeyError` from
`creds["api_key"]`, and `JSONDecodeError` from `response.json()` all propagate
raw. -/
inductive MoltResult where
  | ret (r : Option Json)
  | raise (e : String)

/-- A moltbook operation's outcome together with the requests it issued. -/
structure MOut where
  result : MoltResult
  trace : List HttpRequest

/-- The prelude shared by every operation except `register`:
`creds = load_credentials(); if not creds: return None`, then
`creds["api_key"]` — a `KeyError` when the dict lacks the key, a `TypeError`
when the parsed file is truthy but not a dict (in `check_status` alone the
preceding `creds.get` in a print would raise `AttributeError` first; no claim
touches that path).  Returns the credentials and key, or the operation's
early exit. -/
def credsKey (fs : Option Json) : Except MOut (Json × Json) :=
  match load_credentials fs with
  | none => .error ⟨.ret none, []⟩
  | some creds =>
      if !jsonTruthy creds then .error ⟨.ret none, []⟩
      else
        match creds with
        | .obj fields =>
            match lookupField fields "api_key" with
            | none => .error ⟨.raise "KeyError", []⟩
            | some key => .ok (creds, key)
        | _ => .error ⟨.raise "TypeError", []⟩

/-- `check_status()`: GET `/agents/status` with auth; returns the decoded body
on 200, else `None`. -/
def check_status (fs : Option Json)
    (transport : HttpRequest → TransportResult) : MOut :=
  match credsKey fs with
  | .error out => out
  | .ok (_, key) =>
      let req : HttpRequest :=
        ⟨"GET", BASE_URL ++ "/agents/status", get_headers (some key), none, []⟩
      match transport req with
      | .exn e => ⟨.raise e, [req]⟩
      | .success status b =>
          if status = 200 then
            match b with
            | .jsonBody data => ⟨.ret (some data), [req]⟩
            | .textBody _ => ⟨.raise "JSONDecodeError", [req]⟩
          else ⟨.ret none, [req]⟩

/-- `get_feed(sort, limit)`: GET `/posts` with auth; on 200 returns
`data.get("data", data.get("posts", []))` (an `AttributeError` when the body is
not a dict), else `None`. -/
def get_feed (fs : Option Json) (sort : String) (lim : Int)
    (transport : HttpRequest → TransportResult) : MOut :=
  match credsKey fs with
  | .error out => out
  | .ok (_, key) =>
      let req : HttpRequest :=
        ⟨"GET", BASE_URL ++ "/posts", get_headers (some key), none,
          [("sort", Json.str sort), ("limit", Json.num lim)]⟩
      match transport req with
      | .exn e => ⟨.raise e, [req]⟩
      | .success status b =>
          if status = 200 then
            match b with
            | .jsonBody data =>
                match data with
                | .obj fields =>
                    ⟨.ret (some ((lookupField fields "data").getD
                        ((lookupField fields "posts").getD (Json.arr [])))), [req]⟩
                | _ => ⟨.raise "AttributeError", [req]⟩
            | .textBody _ => ⟨.raise "JSONDecodeError", [req]⟩
          else ⟨.ret none, [req]⟩

/-- `get_post(post_id)`: GET `/posts/{id}` with auth; returns the decoded body
on 200, else `None`. -/
def get_post (fs : Option Json) (post_id : String)
    (transport : HttpRequest → TransportResult) : MOut :=
  match credsKey fs with
  | .error out => out
  | .ok (_, key) =>
      let req : HttpRequest :=
        ⟨"GET", BASE_URL ++ "/posts/" ++ post_id, get_headers (some key), none, []⟩
      match transport req with
      | .exn e => ⟨.raise e, [req]⟩
      | .success status b =>
          if status = 200 then
            match b with
            | .jsonBody data => ⟨.ret (some data), [req]⟩
            | .textBody _ => ⟨.raise "JSONDecodeError", [req]⟩
          else ⟨.ret none, [req]⟩

/-- `search_posts(query, limit)`: GET `/search` with auth; returns the decoded
body on 200, else `None`. -/
def search_posts (fs : Option Json) (query : String) (lim : Int)
    (transport : HttpRequest → TransportResult) : MOut :=
  match credsKey fs with
  | .error out => out
  | .ok (_, key) =>
      let req : HttpRequest :=
        ⟨"GET", BASE_URL ++ "/search", get_headers (some key), none,
          [("q", Json.str query), ("limit", Json.num lim)]⟩
      match transport req with
      | .exn e => ⟨.raise e, [req]⟩
      | .success status b =>
          if status = 200 then
            match b with
            | .jsonBody data => ⟨.ret (some data), [req]⟩
            | .textBody _ => ⟨.raise "JSONDecodeError", [req]⟩
          else ⟨.ret none, [req]⟩

/-- `get_submolts()`: GET `/submolts` with auth; on 200 returns
`data.get("data", data.get("submolts", []))`, else `None`. -/
def get_submolts (fs : Option Json)
    (transport : HttpRequest → TransportResult) : MOut :=
  match credsKey fs with
  | .error out => out
  | .ok (_, key) =>
      let req : HttpRequest :=
        ⟨"GET", BASE_URL ++ "/submolts", get_headers (some key), none, []⟩
      match transport req with
      | .exn e => ⟨.raise e, [req]⟩
      | .success status b =>
          if status = 200 then
            match b with
            | .jsonBody data =>
                match data with
                | .obj fields =>
                    ⟨.ret (some ((lookupField fields "data").getD
                        ((lookupField fields "submolts").getD (Json.arr [])))), [req]⟩
                | _ => ⟨.raise "AttributeError", [req]⟩
            | .textBody _ => ⟨.raise "JSONDecodeError", [req]⟩
          else ⟨.ret none, [req]⟩

/-- `get_my_profile()`: GET `/agents/me` with auth; returns the decoded body on
200, else `None`. -/
def get_my_profile (fs : Option Json)
    (transport : HttpRequest → TransportResult) : MOut :=
  match credsKey fs with
  | .error out => out
  | .ok (_, key) =>
      let req : HttpRequest :=
        ⟨"GET", BASE_URL ++ "/agents/me", get_headers (some key), none, []⟩
      match transport req with
      | .exn e => ⟨.raise e, [req]⟩
      | .success status b =>
          if status = 200 then
            match b with
            | .jsonBody data => ⟨.ret (some data), [req]⟩
            | .textBody _ => ⟨.raise "JSONDecodeError", [req]⟩
          else ⟨.ret none, [req]⟩

/-- `create_post(submolt, title, content, url)`: POST `/posts` with auth — note
there is no local validation of `content`/`url`; the payload holds `submolt`
and `title` always and the other two only when truthy.  Returns the decoded
body on 200/201, else `None`. -/
def create_post (fs : Option Json) (submolt title : String) (content url : Json)
    (transport : HttpRequest → TransportResult) : MOut :=
  match credsKey fs with
  | .error out => out
  | .ok (_, key) =>
      let payload := Json.obj
        ((("submolt", Json.str submolt) :: ("title", Json.str title) ::
            (if jsonTruthy content then [("content", content)] else [])) ++
          (if jsonTruthy url then [("url", url)] else []))
      let req : HttpRequest :=
        ⟨"POST", BASE_URL ++ "/posts", get_headers (some key), some payload, []⟩
      match transport req with
      | .exn e => ⟨.raise e, [req]⟩
      | .success status b =>
          if status = 200 || status = 201 then
            match b with
            | .jsonBody data => ⟨.ret (some data), [req]⟩
            | .textBody _ => ⟨.raise "JSONDecodeError", [req]⟩
          else ⟨.ret none, [req]⟩

/-- `add_comment(post_id, content, parent_id)`: POST `/posts/{id}/comments`
with auth, `parent_id` included only when truthy.  Returns the decoded body on
200/201, else `None`. -/
def add_comment (fs : Option Json) (post_id : String) (content : String)
    (parent_id : Json) (transport : HttpRequest → TransportResult) : MOut :=
  match credsKey fs with
  | .error out => out
  | .ok (_, key) =>
      let payload := Json.obj
        (("content", Json.str content) ::
          (if jsonTruthy parent_id then [("parent_id", parent_id)] else []))
      let req : HttpRequest :=
        ⟨"POST", BASE_URL ++ "/posts/" ++ post_id ++ "/comments",
          get_headers (some key), some payload, []⟩
      match transport req with
      | .exn e => ⟨.raise e, [req]⟩
      | .success status b =>
          if status = 200 || status = 201 then
            match b with
            | .jsonBody data => ⟨.ret (some data), [req]⟩
            | .textBody _ => ⟨.raise "JSONDecodeError", [req]⟩
          else ⟨.ret none, [req]⟩

/-- `upvote_post(post_id)`: POST `/posts/{id}/upvote` with auth; returns the
decoded body on 200, else `None`. -/
def upvote_post (fs : Option Json) (post_id : String)
    (transport : HttpRequest → TransportResult) : MOut :=
  match credsKey fs with
  | .error out => out
  | .ok (_, key) =>
      let req : HttpRequest :=
        ⟨"POST", BASE_URL ++ "/posts/" ++ post_id ++ "/upvote",
          get_headers (some key), none, []⟩
      match transport req with
      | .exn e => ⟨.raise e, [req]⟩
      | .success status b =>
          if status = 200 then
            match b with
            | .jsonBody data => ⟨.ret (some data), [req]⟩
            | .textBody _ => ⟨.raise "JSONDecodeError", [req]⟩
          else ⟨.ret none, [req]⟩

/-- Substring test, for Python `needle in haystack` on strings (the needles in
this file are nonempty literals). -/
def strContains (hay needle : String) : Bool := (hay.splitOn needle).length > 1

/-- Python `"k" in data` on a JSON-representable value: key test on dicts,
membership on lists, substring on strings, `TypeError` otherwise. -/
def pyIn (needle : String) : Json → Except String Bool
  | .obj fields => .ok (lookupField fields needle).isSome
  | .arr es =>
      .ok (es.any fun e => match e with | .str s => s = needle | _ => false)
  | .str s => .ok (strContains s needle)
  | _ => .error "TypeError"

/-- Python `data[k]` with a string key: field access on dicts (`KeyError` when
absent), `TypeError` on everything else (list/str indices must be integers). -/
def pySubscript (j : Json) (k : String) : Except String Json :=
  match j with
  | .obj fields =>
      match lookupField fields k with
      | some v => .ok v
      | none => .error "KeyError"
  | _ => .error "TypeError"

/-- `register()`: POST `/agents/register` without auth; on 200/201, when
`"agent" in data and "api_key" in data["agent"]`, write a credentials file
holding the key, `AGENT_NAME`, `registered_at` (`datetime.now()`, passed in as
`now`) and, when present, `claim_url` and `verification_code`; return the
decoded body.  On any other status print and return `None`.  The second
component of the result is the credentials file afterwards. -/
def register (fs : Option Json) (now : String)
    (transport : HttpRequest → TransportResult) : MOut × Option Json :=
  let req : HttpRequest :=
    ⟨"POST", BASE_URL ++ "/agents/register", get_headers none,
      some (Json.obj [("name", Json.str AGENT_NAME),
        ("description", Json.str AGENT_DESCRIPTION)]), []⟩
  match transport req with
  | .exn e => (⟨.raise e, [req]⟩, fs)
  | .success status b =>
      if status = 200 || status = 201 then
        match b with
        | .textBody _ => (⟨.raise "JSONDecodeError", [req]⟩, fs)
        | .jsonBody data =>
            match pyIn "agent" data with
            | .error e => (⟨.raise e, [req]⟩, fs)
            | .ok false => (⟨.ret (some data), [req]⟩, fs)
            | .ok true =>
                match pySubscript data "agent" with
                | .error e => (⟨.raise e, [req]⟩, fs)
                | .ok agent =>
                    match pyIn "api_key" agent with
                    | .error e => (⟨.raise e, [req]⟩, fs)
                    | .ok false => (⟨.ret (some data), [req]⟩, fs)
                    | .ok true =>
                        match pySubscript agent "api_key" with
                        | .error e => (⟨.raise e, [req]⟩, fs)
                        | .ok key =>
                            match pyIn "claim_url" agent,
                                pyIn "verification_code" agent with
                            | .ok hasClaim, .ok hasVc =>
                                let creds :=
                                  [("api_key", key),
                                    ("agent_name", Json.str AGENT_NAME),
                                    ("registered_at", Json.str now)] ++
                                  (if hasClaim then
                                    match pySubscript agent "claim_url" with
                                    | .ok u => [("claim_url", u)]
                                    | .error _ => []
                                  else []) ++
                                  (if hasVc then
                                    match pySubscript agent "verification_code" with
                                    | .ok v => [("verification_code", v)]
                                    | .error _ => []
                                  else [])
                                (⟨.ret (some data), [req]⟩, some (Json.obj creds))
                            | .error e, _ => (⟨.raise e, [req]⟩, fs)
                            | _, .error e => (⟨.raise e, [req]⟩, fs)
      else (⟨.ret none, [req]⟩, fs)

end Moltbook

/-! ## The credentials file as text: `json.dump(creds, f, indent=2)` and
`json.load(f)`

Both clients persist credentials as a flat JSON object whose values are
strings, booleans or `null` (`_save_credentials` in `ainews_client.py`,
`save_credentials` in `moltbook_client.py`).  This section models the actual
text-level round trip through the file: `dumps` reproduces Python's
`json.dump` with `indent=2` and default `ensure_ascii=True` (short escapes for
quote, backslash and the five named control characters, `\uXXXX` for other
control and all non-ASCII characters, surrogate pairs beyond U+FFFF), and
`parseDoc` models `json.load` on that document grammar (a flat object of such
primitives, with JSON whitespace).  Python's parser additionally accepts
nested values and lone-surrogate escapes, which no credentials file produced
by `save` contains; fuel arguments are technical totality bounds, always
passed large enough to be unreachable. -/

namespace CredJson

def hexVal (c : Char) : Option Nat :=
  let n := c.toNat
  if 48 ≤ n ∧ n ≤ 57 then some (n - 48)
  else if 97 ≤ n ∧ n ≤ 102 then some (n - 87)
  else if 65 ≤ n ∧ n ≤ 70 then some (n - 55)
  else none

def toHex (d : Nat) : Char :=
  if d < 10 then Char.ofNat (48 + d) else Char.ofNat (87 + d)

def hexQuadChars (n : Nat) : List Char :=
  [toHex (n / 4096 % 16), toHex (n / 256 % 16), toHex (n / 16 % 16),
    toHex (n % 16)]

def hexQuad (a b c d : Char) : Option Nat :=
  match hexVal a, hexVal b, hexVal c, hexVal d with
  | some va, some vb, some vc, some vd =>
      some (((va * 16 + vb) * 16 + vc) * 16 + vd)
  | _, _, _, _ => none

def unescape (e : Char) : Option Char :=
  if e = '"' then some '"'
  else if e = '\\' then some '\\'
  else if e = '/' then some '/'
  else if e = 'b' then some (Char.ofNat 8)
  else if e = 'f' then some (Char.ofNat 12)
  else if e = 'n' then some '\n'
  else if e = 'r' then some '\r'
  else if e = 't' then some '\t'
  else none

def escapeChar (c : Char) : List Char :=
  if c = '"' then ['\\', '"']
  else if c = '\\' then ['\\', '\\']
  else if c = '\x08' then ['\\', 'b']
  else if c = '\x0c' then ['\\', 'f']
  else if c = '\n' then ['\\', 'n']
  else if c = '\r' then ['\\', 'r']
  else if c = '\t' then ['\\', 't']
  else if 0x20 ≤ c.toNat ∧ c.toNat ≤ 0x7e then [c]
  else if c.toNat < 0x10000 then '\\' :: 'u' :: hexQuadChars c.toNat
  else
    ('\\' :: 'u' :: hexQuadChars (0xd800 + (c.toNat - 0x10000) / 0x400)) ++
      ('\\' :: 'u' :: hexQuadChars (0xdc00 + (c.toNat - 0x10000) % 0x400))

/-- The body of a JSON string literal after the opening quote.  `fuel` is a
technical totality bound: every recursive step consumes at least one input
character, so any `fuel > cs.length` gives the behavior of Python's unbounded
scanner (callers pass `cs.length + 1`). -/

def parseStrAux (fuel : Nat) (acc : List Char) (cs : List Char) :
    Option (List Char × List Char) :=
  match fuel, cs with
  | 0, _ => none
  | _ + 1, [] => none
  | fuel + 1, c :: cs =>
      if c = '"' then some (acc.reverse, cs)
      else if c = '\\' then
        match cs with
        | [] => none
        | e :: cs2 =>
            if e = 'u' then
              match cs2 with
              | a :: b :: c3 :: d :: rest =>
                  (match hexQuad a b c3 d with
                  | none => none
                  | some n =>
                      if 0xd800 ≤ n ∧ n ≤ 0xdbff then
                        match rest with
                        | e2 :: u2 :: a2 :: b2 :: c4 :: d2 :: rest2 =>
                            if e2 = '\\' ∧ u2 = 'u' then
                              match hexQuad a2 b2 c4 d2 with
                              | none => none
                              | some m =>
                                  if 0xdc00 ≤ m ∧ m ≤ 0xdfff then
                                    parseStrAux fuel
                                      (Char.ofNat (0x10000 + (n - 0xd800) * 0x400 +
                                          (m - 0xdc00)) :: acc) rest2
                                  else none
                            else none
                        | _ => none
                      else if 0xdc00 ≤ n ∧ n ≤ 0xdfff then none
                      else parseStrAux fuel (Char.ofNat n :: acc) rest)
              | _ => none
            else
              match unescape e with
              | some ch => parseStrAux fuel (ch :: acc) cs2
              | none => none
      else parseStrAux fuel (c :: acc) cs

inductive JPrim where
  | null
  | bool (b : Bool)
  | str (s : String)
deriving DecidableEq

abbrev CredDoc := List (String × JPrim)

def renderStr (s : String) : List Char :=
  '"' :: (s.data.flatMap escapeChar ++ ['"'])

def renderPrim (v : JPrim) : List Char :=
  match v with
  | .str s => renderStr s
  | .bool b => if b then "true".data else "false".data
  | .null => "null".data

def parsePrim (cs : List Char) : Option (JPrim × List Char) :=
  match cs with
  | [] => none
  | c :: rest =>
      if c = '"' then
        match parseStrAux (rest.length + 1) [] rest with
        | some (chars, rest') => some (.str ⟨chars⟩, rest')
        | none => none
      else if c = 'n' then
        match rest with
        | u :: l1 :: l2 :: rest2 =>
            if u = 'u' ∧ l1 = 'l' ∧ l2 = 'l' then some (.null, rest2) else none
        | _ => none
      else if c = 't' then
        match rest with
        | r :: u :: e :: rest2 =>
            if r = 'r' ∧ u = 'u' ∧ e = 'e' then some (.bool true, rest2) else none
        | _ => none
      else if c = 'f' then
        match rest with
        | a :: l1 :: s :: e :: rest2 =>
            if a = 'a' ∧ l1 = 'l' ∧ s = 's' ∧ e = 'e' then some (.bool false, rest2)
            else none
        | _ => none
      else none

def renderMembers : CredDoc → List Char
  | [] => []
  | [(k, v)] => renderStr k ++ ':' :: ' ' :: renderPrim v
  | (k, v) :: ms =>
      renderStr k ++ ':' :: ' ' ::
        (renderPrim v ++ ',' :: '\n' :: ' ' :: ' ' :: renderMembers ms)

def dumpDoc : CredDoc → List Char
  | [] => ['\x7b', '\x7d']
  | m :: ms => '\x7b' :: '\n' :: ' ' :: ' ' ::
      (renderMembers (m :: ms) ++ ['\n', '\x7d'])

def isWs (c : Char) : Bool := c = ' ' || c = '\t' || c = '\n' || c = '\r'

def skipWs (cs : List Char) : List Char :=
  match cs with
  | [] => []
  | w :: more => if isWs w then skipWs more else w :: more

def parseMembers (fuel : Nat) (acc : CredDoc) (cs : List Char) :
    Option (CredDoc × List Char) :=
  match fuel with
  | fuel + 1 =>
      match cs with
      | [] => none
      | q :: rest =>
          if q = '"' then
            match parseStrAux (rest.length + 1) [] rest with
            | none => none
            | some (kcs, rest1) =>
                match skipWs rest1 with
                | [] => none
                | colon :: rest2 =>
                    if colon = ':' then
                      match parsePrim (skipWs rest2) with
                      | none => none
                      | some (v, rest3) =>
                          match skipWs rest3 with
                          | [] => none
                          | sep :: rest4 =>
                              if sep = ',' then
                                parseMembers fuel ((⟨kcs⟩, v) :: acc) (skipWs rest4)
                              else if sep = '\x7d' then
                                some ((((⟨kcs⟩ : String), v) :: acc).reverse, rest4)
                              else none
                    else none
          else none
  | 0 => none

def parseDoc (cs : List Char) : Option CredDoc :=
  match skipWs cs with
  | [] => none
  | b :: rest =>
      if b = '\x7b' then
        match skipWs rest with
        | [] => none
        | c :: rest1 =>
            if c = '\x7d' then if skipWs rest1 = [] then some [] else none
            else
              match parseMembers ((c :: rest1).length + 1) [] (c :: rest1) with
              | some (doc, rest2) => if skipWs rest2 = [] then some doc else none
              | none => none
      else none

/-- The file content that `json.dump(doc, f, indent=2)` writes. -/
def dumps (doc : CredDoc) : String := ⟨dumpDoc doc⟩

/-- `json.load` of a file whose content is `s`. -/
def loads (s : String) : Option CredDoc := parseDoc s.data

end CredJson

/-- The credentials dict built by `AINewsClient._save_credentials` (fields in
source order; `datetime.now().isoformat()` is the `now` argument;
`verification_code` has Python default `None`). -/
def AINews.save_credentials_doc (api_key journalist_name journalist_id : String)
    (verification_code : Option String) (verified : Bool)
    (now base_url : String) : CredJson.CredDoc :=
  [("api_key", .str api_key),
    ("journalist_name", .str journalist_name),
    ("journalist_id", .str journalist_id),
    ("verification_code",
      match verification_code with | some s => .str s | none => .null),
    ("verified", .bool verified),
    ("registered_at", .str now),
    ("base_url", .str base_url)]

/-- The file content `AINewsClient._save_credentials` writes
(`json.dump(creds, f, indent=2)`). -/
def AINews.save_credentials_content (api_key journalist_name journalist_id : String)
    (verification_code : Option String) (verified : Bool)
    (now base_url : String) : String :=
  CredJson.dumps (AINews.save_credentials_doc api_key journalist_name
    journalist_id verification_code verified now base_url)

/-- The file content `moltbook_client.save_credentials(creds)` writes. -/
def Moltbook.save_credentials_content (creds : CredJson.CredDoc) : String :=
  CredJson.dumps creds

/-- `moltbook_client.load_credentials()` applied to a file with content `s`:
`json.load` of the text. -/
def Moltbook.load_credentials_content (s : String) : Option CredJson.CredDoc :=
  CredJson.loads s

/-- Following the SPEC'S WORDS, for comparison against the code (claim C5):
"resolves the API key as the explicit argument, else the environment variable,
else the value loaded from the Credential Store". -/
def AINews.specApiKeyResolution (arg : Json) (envKey : Option String)
    (store : Json) : Json :=
  if jsonTruthy arg then arg
  else
    match envKey with
    | some s => Json.str s
    | none => store

/-! ## Proofs -/

namespace CredJson

theorem hexVal_toHex : ∀ d < 16, hexVal (toHex d) = some d := by decide

theorem hexQuad_encode (n : Nat) (h : n < 0x10000) :
    hexQuad (toHex (n / 4096 % 16)) (toHex (n / 256 % 16)) (toHex (n / 16 % 16))
      (toHex (n % 16)) = some n := by
  have h16 : n / 4096 % 16 < 16 ∧ n / 256 % 16 < 16 ∧ n / 16 % 16 < 16 ∧
      n % 16 < 16 := by omega
  rw [hexQuad, hexVal_toHex _ h16.1, hexVal_toHex _ h16.2.1,
    hexVal_toHex _ h16.2.2.1, hexVal_toHex _ h16.2.2.2]
  simp only [Option.some.injEq]
  omega

theorem char_scalar (c : Char) :
    c.toNat < 0xd800 ∨ (0xdfff < c.toNat ∧ c.toNat < 0x110000) := by
  have h := c.valid
  simp [UInt32.isValidChar, Nat.isValidChar, Char.toNat] at h ⊢
  exact h

theorem parseStrAux_quote (fuel : Nat) (acc cs : List Char) :
    parseStrAux (fuel + 1) acc ('"' :: cs) = some (acc.reverse, cs) := by
  simp only [parseStrAux, Char.reduceEq, reduceIte]

theorem parseStrAux_esc (fuel : Nat) (acc : List Char) (e : Char)
    (cs : List Char) (ch : Char) (he : ¬ e = 'u') (hu : unescape e = some ch) :
    parseStrAux (fuel + 1) acc ('\\' :: e :: cs) = parseStrAux fuel (ch :: acc) cs := by
  simp only [parseStrAux, Char.reduceEq, reduceIte]
  rw [if_neg he, hu]

theorem parseStrAux_other (fuel : Nat) (acc : List Char) (c : Char)
    (cs : List Char) (h1 : ¬ c = '"') (h2 : ¬ c = '\\') :
    parseStrAux (fuel + 1) acc (c :: cs) = parseStrAux fuel (c :: acc) cs := by
  simp only [parseStrAux]
  rw [if_neg h1, if_neg h2]

theorem parseStrAux_u (fuel : Nat) (acc : List Char) (a b c3 d : Char)
    (rest : List Char) (n : Nat) (hq : hexQuad a b c3 d = some n)
    (hs1 : ¬(0xd800 ≤ n ∧ n ≤ 0xdbff)) (hs2 : ¬(0xdc00 ≤ n ∧ n ≤ 0xdfff)) :
    parseStrAux (fuel + 1) acc ('\\' :: 'u' :: a :: b :: c3 :: d :: rest) =
      parseStrAux fuel (Char.ofNat n :: acc) rest := by
  simp only [parseStrAux, Char.reduceEq, reduceIte, hq, hs1, hs2]

theorem parseStrAux_upair (fuel : Nat) (acc : List Char) (a b c3 d a2 b2 c4 d2 : Char)
    (rest : List Char) (n m : Nat)
    (hq1 : hexQuad a b c3 d = some n) (hn : 0xd800 ≤ n ∧ n ≤ 0xdbff)
    (hq2 : hexQuad a2 b2 c4 d2 = some m) (hm : 0xdc00 ≤ m ∧ m ≤ 0xdfff) :
    parseStrAux (fuel + 1) acc
        ('\\' :: 'u' :: a :: b :: c3 :: d :: '\\' :: 'u' :: a2 :: b2 :: c4 :: d2 :: rest) =
      parseStrAux fuel
        (Char.ofNat (0x10000 + (n - 0xd800) * 0x400 + (m - 0xdc00)) :: acc) rest := by
  simp only [parseStrAux, Char.reduceEq, reduceIte, hq1]
  rw [if_pos hn]
  simp only [Char.reduceEq, reduceIte, and_self, hq2]
  rw [if_pos hm]

theorem parseStrAux_escape (c : Char) (fuel : Nat) (acc rest : List Char) :
    parseStrAux (fuel + 1) acc (escapeChar c ++ rest) =
      parseStrAux fuel (c :: acc) rest := by
  by_cases h1 : c = '"'
  · subst h1
    rw [show escapeChar '"' = ['\\', '"'] from rfl, List.cons_append,
      List.cons_append, List.nil_append,
      parseStrAux_esc fuel acc '"' rest '"' (by decide) (by decide)]
  by_cases h2 : c = '\\'
  · subst h2
    rw [show escapeChar '\\' = ['\\', '\\'] from rfl, List.cons_append,
      List.cons_append, List.nil_append,
      parseStrAux_esc fuel acc '\\' rest '\\' (by decide) (by decide)]
  by_cases h3 : c = '\x08'
  · subst h3
    rw [show escapeChar '\x08' = ['\\', 'b'] from rfl, List.cons_append,
      List.cons_append, List.nil_append,
      parseStrAux_esc fuel acc 'b' rest '\x08' (by decide) (by decide)]
  by_cases h4 : c = '\x0c'
  · subst h4
    rw [show escapeChar '\x0c' = ['\\', 'f'] from rfl, List.cons_append,
      List.cons_append, List.nil_append,
      parseStrAux_esc fuel acc 'f' rest '\x0c' (by decide) (by decide)]
  by_cases h5 : c = '\n'
  · subst h5
    rw [show escapeChar '\n' = ['\\', 'n'] from rfl, List.cons_append,
      List.cons_append, List.nil_append,
      parseStrAux_esc fuel acc 'n' rest '\n' (by decide) (by decide)]
  by_cases h6 : c = '\r'
  · subst h6
    rw [show escapeChar '\r' = ['\\', 'r'] from rfl, List.cons_append,
      List.cons_append, List.nil_append,
      parseStrAux_esc fuel acc 'r' rest '\r' (by decide) (by decide)]
  by_cases h7 : c = '\t'
  · subst h7
    rw [show escapeChar '\t' = ['\\', 't'] from rfl, List.cons_append,
      List.cons_append, List.nil_append,
      parseStrAux_esc fuel acc 't' rest '\t' (by decide) (by decide)]
  by_cases h8 : 0x20 ≤ c.toNat ∧ c.toNat ≤ 0x7e
  · rw [escapeChar, if_neg h1, if_neg h2, if_neg h3, if_neg h4, if_neg h5,
      if_neg h6, if_neg h7, if_pos h8, List.cons_append, List.nil_append,
      parseStrAux_other fuel acc c rest h1 h2]
  by_cases h9 : c.toNat < 0x10000
  · have hs := char_scalar c
    rw [escapeChar, if_neg h1, if_neg h2, if_neg h3, if_neg h4, if_neg h5,
      if_neg h6, if_neg h7, if_neg h8, if_pos h9, hexQuadChars]
    simp only [List.cons_append, List.nil_append]
    rw [parseStrAux_u fuel acc _ _ _ _ rest c.toNat (hexQuad_encode c.toNat h9)
      (by omega) (by omega), Char.ofNat_toNat]
  · have hs := char_scalar c
    have hv : c.toNat - 0x10000 < 0x100000 := by omega
    have hdiv : (c.toNat - 0x10000) / 0x400 < 0x400 := by omega
    have hmod := Nat.mod_lt (c.toNat - 0x10000) (show 0 < 0x400 by omega)
    rw [escapeChar, if_neg h1, if_neg h2, if_neg h3, if_neg h4, if_neg h5,
      if_neg h6, if_neg h7, if_neg h8, if_neg h9, hexQuadChars, hexQuadChars]
    simp only [List.cons_append, List.nil_append, List.append_assoc]
    rw [parseStrAux_upair fuel acc _ _ _ _ _ _ _ _ rest _ _
      (hexQuad_encode _ (by omega)) (by omega)
      (hexQuad_encode _ (by omega)) (by omega)]
    have harith : 0x10000 + (0xd800 + (c.toNat - 0x10000) / 0x400 - 0xd800) * 0x400 +
        (0xdc00 + (c.toNat - 0x10000) % 0x400 - 0xdc00) = c.toNat := by omega
    rw [harith, Char.ofNat_toNat]

theorem escapeChar_pos (c : Char) : 1 ≤ (escapeChar c).length := by
  unfold escapeChar
  split_ifs <;> simp [hexQuadChars]

theorem flatMap_escape_length (l : List Char) :
    l.length ≤ (l.flatMap escapeChar).length := by
  induction l with
  | nil => simp
  | cons c l ih =>
      rw [List.flatMap_cons, List.length_cons, List.length_append]
      have := escapeChar_pos c
      omega

theorem parseStrAux_flat (l : List Char) : ∀ (fuel : Nat) (acc rest : List Char),
    l.length + 1 ≤ fuel →
    parseStrAux fuel acc (l.flatMap escapeChar ++ '"' :: rest) =
      some (acc.reverse ++ l, rest) := by
  induction l with
  | nil =>
      intro fuel acc rest h
      cases fuel with
      | zero => exact absurd h (by omega)
      | succ f => simp [parseStrAux_quote]
  | cons c l ih =>
      intro fuel acc rest h
      cases fuel with
      | zero => exact absurd h (by omega)
      | succ f =>
          rw [List.flatMap_cons, List.append_assoc, parseStrAux_escape,
            ih f (c :: acc) rest (by simp at h ⊢; omega)]
          simp

theorem null_chars : ("null".data : List Char) = 'n' :: 'u' :: '\x6c' :: 'l' :: [] := rfl

theorem true_chars : ("true".data : List Char) = 't' :: '\x72' :: 'u' :: 'e' :: [] := rfl

theorem false_chars : ("false".data : List Char) = 'f' :: 'a' :: '\x6c' :: 's' :: 'e' :: [] := rfl

theorem parseStr_render (s : String) (tail : List Char) :
    parseStrAux ((s.data.flatMap escapeChar ++ '"' :: tail).length + 1) []
        (s.data.flatMap escapeChar ++ '"' :: tail) = some (s.data, tail) := by
  have hlen := flatMap_escape_length s.data
  rw [parseStrAux_flat s.data _ [] tail
    (by rw [List.length_append, List.length_cons]; omega)]
  simp

theorem parsePrim_render (v : JPrim) (tail : List Char) :
    parsePrim (renderPrim v ++ tail) = some (v, tail) := by
  cases v with
  | null =>
      simp only [renderPrim, null_chars, List.cons_append, List.nil_append,
        parsePrim, Char.reduceEq, reduceIte, and_self]
  | bool b =>
      cases b <;>
        simp only [renderPrim, Bool.false_eq_true, ite_true, ite_false, reduceIte,
          true_chars, false_chars, List.cons_append, List.nil_append, parsePrim,
          Char.reduceEq, and_self]
  | str s =>
      show parsePrim (renderStr s ++ tail) = _
      rw [renderStr]
      simp only [List.cons_append, List.append_assoc, List.nil_append]
      simp only [parsePrim, Char.reduceEq, reduceIte]
      rw [parseStr_render s tail]

theorem skipWs_not {x : Char} (l : List Char) (h : isWs x = false) :
    skipWs (x :: l) = x :: l := by
  simp [skipWs, h]

theorem skipWs_ws {x : Char} (l : List Char) (h : isWs x = true) :
    skipWs (x :: l) = skipWs l := by
  simp [skipWs, h]

theorem skipWs_renderPrim (v : JPrim) (X : List Char) :
    skipWs (renderPrim v ++ X) = renderPrim v ++ X := by
  cases v with
  | null =>
      simp only [renderPrim, null_chars, List.cons_append]
      exact skipWs_not _ (by decide)
  | bool b =>
      cases b <;>
        simp only [renderPrim, Bool.false_eq_true, ite_true, ite_false, reduceIte,
          true_chars, false_chars, List.cons_append] <;>
        exact skipWs_not _ (by decide)
  | str s =>
      simp only [renderPrim, renderStr, List.cons_append]
      exact skipWs_not _ (by decide)

theorem isWs_space : isWs ' ' = true := by decide

theorem isWs_nl : isWs '\n' = true := by decide

theorem isWs_colon : isWs ':' = false := by decide

theorem isWs_quote : isWs '"' = false := by decide

theorem isWs_comma : isWs ',' = false := by decide

theorem isWs_rbrace : isWs '\x7d' = false := by decide

theorem isWs_lbrace : isWs '\x7b' = false := by decide

theorem string_mk_data (s : String) : (⟨s.data⟩ : String) = s := rfl

theorem renderMembers_single (k : String) (v : JPrim) :
    renderMembers [(k, v)] = renderStr k ++ ':' :: ' ' :: renderPrim v := rfl

theorem renderMembers_cons (k : String) (v : JPrim) (m : String × JPrim)
    (ms : CredDoc) :
    renderMembers ((k, v) :: m :: ms) =
      renderStr k ++ ':' :: ' ' ::
        (renderPrim v ++ ',' :: '\n' :: ' ' :: ' ' :: renderMembers (m :: ms)) := rfl

theorem renderMembers_length : ∀ doc : CredDoc, doc.length ≤ (renderMembers doc).length
  | [] => by simp [renderMembers]
  | [(k, v)] => by
      rw [renderMembers_single]
      simp only [List.length_append, List.length_cons, List.length_nil]
      omega
  | (k, v) :: m :: ms => by
      rw [renderMembers_cons]
      have ih := renderMembers_length (m :: ms)
      simp only [List.length_append, List.length_cons] at ih ⊢
      omega

theorem skipWs_renderMembers (p : String × JPrim) (ms : CredDoc) (X : List Char) :
    skipWs (renderMembers (p :: ms) ++ X) = renderMembers (p :: ms) ++ X := by
  obtain ⟨k, v⟩ := p
  cases ms with
  | nil =>
      rw [renderMembers_single, renderStr]
      simp only [List.cons_append]
      exact skipWs_not _ isWs_quote
  | cons m ms' =>
      rw [renderMembers_cons, renderStr]
      simp only [List.cons_append]
      exact skipWs_not _ isWs_quote

theorem parseMembers_render : ∀ (doc : CredDoc) (acc : CredDoc) (tail : List Char)
    (fuel : Nat), doc ≠ [] → doc.length ≤ fuel →
    parseMembers fuel acc (renderMembers doc ++ '\n' :: '\x7d' :: tail) =
      some (acc.reverse ++ doc, tail) := by
  intro doc
  induction doc with
  | nil => intro acc tail fuel h; exact absurd rfl h
  | cons kv ms ih =>
      obtain ⟨k, v⟩ := kv
      intro acc tail fuel _ hfuel
      cases fuel with
      | zero => simp at hfuel
      | succ f =>
      cases ms with
      | nil =>
          rw [renderMembers_single, renderStr]
          simp only [List.cons_append, List.append_assoc, List.nil_append]
          simp only [parseMembers, Char.reduceEq, reduceIte, parseStr_render,
            parsePrim_render, skipWs_renderPrim, skipWs_not, skipWs_ws,
            isWs_space, isWs_nl, isWs_colon, isWs_quote, isWs_comma,
            isWs_rbrace, string_mk_data]
          simp [List.reverse_cons]
      | cons m ms' =>
          rw [renderMembers_cons, renderStr]
          simp only [List.cons_append, List.append_assoc, List.nil_append]
          simp only [parseMembers, Char.reduceEq, reduceIte, parseStr_render,
            parsePrim_render, skipWs_renderPrim, skipWs_renderMembers,
            skipWs_not, skipWs_ws, isWs_space, isWs_nl, isWs_colon, isWs_quote,
            isWs_comma, isWs_rbrace, string_mk_data]
          rw [ih ((k, v) :: acc) tail f (by simp) (by simp at hfuel ⊢; omega)]
          simp [List.reverse_cons]

theorem parseDoc_dump (doc : CredDoc) : parseDoc (dumpDoc doc) = some doc := by
  cases doc with
  | nil => rfl
  | cons kv ms =>
      obtain ⟨k, v⟩ := kv
      rw [dumpDoc]
      rw [parseDoc.eq_def]
      rw [skipWs_not _ isWs_lbrace]
      simp only [Char.reduceEq, reduceIte]
      rw [skipWs_ws _ isWs_nl, skipWs_ws _ isWs_space, skipWs_ws _ isWs_space,
        skipWs_renderMembers]
      have hhead : ∃ M, renderMembers ((k, v) :: ms) = '"' :: M := by
        cases ms with
        | nil => exact ⟨_, by rw [renderMembers_single, renderStr, List.cons_append]⟩
        | cons m2 ms2 => exact ⟨_, by rw [renderMembers_cons, renderStr, List.cons_append]⟩
      obtain ⟨M, hM⟩ := hhead
      rw [hM, List.cons_append]
      simp only [Char.reduceEq, reduceIte]
      rw [← List.cons_append, ← hM]
      have hlen := renderMembers_length ((k, v) :: ms)
      rw [parseMembers_render ((k, v) :: ms) [] [] _ (by simp)
        (by simp only [List.length_append, List.length_cons] at hlen ⊢; omega)]
      simp [skipWs]

/-- The text-level round trip: parsing a pretty-printed credentials document
recovers it exactly. -/
theorem loads_dumps (doc : CredDoc) : loads (dumps doc) = some doc :=
  parseDoc_dump doc

end CredJson

/-- C7: for every JSON-representable Credentials value, `save` followed by
`load` yields a structurally equal Credentials value — the pretty-print/parse
round trip through the credentials file is the identity on the stored
document, both for moltbook's `save_credentials`/`load_credentials` pair and
for the documents `AINewsClient._save_credentials` writes. -/
theorem C7_save_load_roundtrip :
    (∀ creds : CredJson.CredDoc,
        Moltbook.load_credentials_content (Moltbook.save_credentials_content creds) =
          some creds) ∧
    (∀ (api_key journalist_name journalist_id : String)
        (verification_code : Option String) (verified : Bool) (now base_url : String),
        CredJson.loads (AINews.save_credentials_content api_key journalist_name
            journalist_id verification_code verified now base_url) =
          some (AINews.save_credentials_doc api_key journalist_name journalist_id
            verification_code verified now base_url)) :=
  ⟨fun creds => CredJson.loads_dumps creds,
    fun a jn jid vc v now b => CredJson.loads_dumps (AINews.save_credentials_doc a jn jid vc v now b)⟩

/-- C8: every moltbook operation other than `register` returns `None` and
issues no HTTP request when the credentials file is absent. -/
theorem C8_no_credentials_no_request :
    ∀ (t : HttpRequest → TransportResult) (sortv q pid sub title ctext : String)
      (lim : Int) (content url parent : Json),
      Moltbook.check_status none t = ⟨.ret none, []⟩ ∧
      Moltbook.get_feed none sortv lim t = ⟨.ret none, []⟩ ∧
      Moltbook.get_post none pid t = ⟨.ret none, []⟩ ∧
      Moltbook.search_posts none q lim t = ⟨.ret none, []⟩ ∧
      Moltbook.get_submolts none t = ⟨.ret none, []⟩ ∧
      Moltbook.get_my_profile none t = ⟨.ret none, []⟩ ∧
      Moltbook.create_post none sub title content url t = ⟨.ret none, []⟩ ∧
      Moltbook.add_comment none pid ctext parent t = ⟨.ret none, []⟩ ∧
      Moltbook.upvote_post none pid t = ⟨.ret none, []⟩ :=
  fun _ _ _ _ _ _ _ _ _ _ _ => by
    refine ⟨rfl, ?g1, rfl, ?g2, rfl, ?g3, rfl, ?g4, rfl⟩ <;> rfl

/-- The shared credentials prelude of the moltbook operations, when the file
holds truthy credentials with an `api_key` field. -/
theorem Moltbook.credsKey_some (creds key : Json) (h1 : jsonTruthy creds = true)
    (h2 : jget creds "api_key" = some key) :
    Moltbook.credsKey (some creds) = .ok (creds, key) := by
  cases creds <;>
    simp_all [Moltbook.credsKey, Moltbook.load_credentials, jget]

/-- C1 fails as stated: moltbook's `create_post`, called with both `content`
and `url` absent, performs no local validation — it returns the decoded
response and hands exactly one HTTP request (whose payload carries only
`submolt` and `title`) to the transport, instead of raising a local
`ValidationError` with no network call. -/
theorem C1_counterexample :
    Moltbook.create_post (some (Json.obj [("api_key", Json.str "k")]))
        "general" "title" Json.null Json.null
        (constT (.success 200 (.jsonBody (Json.obj [("id", Json.str "1")])))) =
      ⟨.ret (some (Json.obj [("id", Json.str "1")])),
        [⟨"POST", Moltbook.BASE_URL ++ "/posts",
          Moltbook.get_headers (some (Json.str "k")),
          some (Json.obj [("submolt", Json.str "general"), ("title", Json.str "title")]),
          []⟩]⟩ := rfl

/-- C1 (amended): `AINewsClient.post_story` with both `content` and `url`
falsy raises `AINewsError("Either content or url is required")` locally and
issues no HTTP request; moltbook's `create_post` performs no such validation
and issues the request with a payload holding only `submolt` and `title`. -/
theorem C1_create_validation :
    (∀ (c : AINews.Client) (title : String) (content url : Json)
        (t : HttpRequest → TransportResult),
        jsonTruthy content = false → jsonTruthy url = false →
        AINews.post_story c title content url t =
          ⟨.apiError ⟨Json.str "Either content or url is required",
              Json.null, Json.null⟩, []⟩) ∧
    (∀ (creds key : Json) (submolt title : String)
        (t : HttpRequest → TransportResult),
        jsonTruthy creds = true → jget creds "api_key" = some key →
        (Moltbook.create_post (some creds) submolt title Json.null Json.null t).trace =
          [⟨"POST", Moltbook.BASE_URL ++ "/posts", Moltbook.get_headers (some key),
            some (Json.obj [("submolt", Json.str submolt), ("title", Json.str title)]),
            []⟩]) := by
  constructor
  · intro c title content url t h1 h2
    simp [AINews.post_story, h1, h2]
  · intro creds key submolt title t h1 h2
    simp only [Moltbook.create_post, Moltbook.credsKey_some creds key h1 h2]
    split
    · rfl
    · split
      · split <;> rfl
      · rfl

/-- C1 witness: the amended theorem at concrete inputs. -/
theorem C1_create_validation_witness :
    AINews.post_story ⟨AINews.DEFAULT_BASE_URL, Json.null, Json.null⟩ "T"
        Json.null Json.null (constT (.success 200 (.jsonBody Json.null))) =
      ⟨.apiError ⟨Json.str "Either content or url is required",
          Json.null, Json.null⟩, []⟩ ∧
    (Moltbook.create_post (some (Json.obj [("api_key", Json.str "k")])) "general" "T"
        Json.null Json.null (constT (.success 200 (.jsonBody Json.null)))).trace =
      [⟨"POST", Moltbook.BASE_URL ++ "/posts",
        Moltbook.get_headers (some (Json.str "k")),
        some (Json.obj [("submolt", Json.str "general"), ("title", Json.str "T")]),
        []⟩] :=
  ⟨C1_create_validation.1 _ "T" Json.null Json.null _ rfl rfl,
    C1_create_validation.2 _ (Json.str "k") "general" "T" _ rfl rfl⟩

/-- `AINewsClient._request` on a status `>= 400` response with a JSON object
body: raises `AINewsError` built from the body's fields. -/
theorem AINews.request_error_body (c : AINews.Client) (method endpoint : String)
    (ar : Bool) (body : Option Json) (params : List (String × Json))
    (status : Nat) (fields : List (String × Json)) (h : 400 ≤ status) :
    AINews.request c method endpoint ar body params
        (constT (.success status (.jsonBody (Json.obj fields)))) =
      ⟨.apiError ⟨(lookupField fields "error").getD
            (Json.str ("HTTP " ++ toString status)),
          (lookupField fields "code").getD Json.null,
          (lookupField fields "details").getD Json.null⟩,
        [⟨method, c.base_url ++ endpoint, AINews.get_headers c ar, body, params⟩]⟩ := by
  simp only [AINews.request, constT]
  rw [if_neg (by omega : ¬ status = 204), if_pos h]

/-- C2 fails as stated: (a) moltbook's `get_post` against a mocked 404 with
body `{"error": "not found"}` raises nothing — it prints and returns `None`;
(b) `AINewsClient._request` does not raise on every non-2xx status: a 301
response with a JSON body is returned as a success value; (c) with a JSON
body that is not an object (here `[]`), the `>= 400` path raises
`AttributeError` from `data.get`, not an `ApiError` with the `"HTTP <status>"`
fallback message. -/
theorem C2_counterexample :
    (Moltbook.get_post (some (Json.obj [("api_key", Json.str "k")])) "42"
        (constT (.success 404 (.jsonBody (Json.obj [("error", Json.str "not found")])))) =
      ⟨.ret none, [⟨"GET", Moltbook.BASE_URL ++ "/posts/42",
          Moltbook.get_headers (some (Json.str "k")), none, []⟩]⟩) ∧
    ((AINews.request ⟨"b", Json.null, Json.null⟩ "GET" "/stories/42" false none []
        (constT (.success 301 (.jsonBody (Json.obj [("error", Json.str "moved")]))))).result =
      .ok (Json.obj [("error", Json.str "moved")])) ∧
    ((AINews.request ⟨"b", Json.null, Json.null⟩ "GET" "/x" false none []
        (constT (.success 400 (.jsonBody (Json.arr []))))).result =
      .pyRaise "AttributeError") :=
  ⟨rfl, rfl, rfl⟩

/-- C2 (amended): for `AINewsClient`, every response with status `>= 400` and
a JSON object body raises `AINewsError` whose message is the body's `error`
field when present and `"HTTP <status>"` otherwise, with `code` and `details`
taken from the body (`None` when absent); in particular `get_story` against a
mocked 404 whose body's `error` field is `"not found"` raises with message
`"not found"`.  Moltbook's `get_post` never raises: on any non-200 status it
returns `None`. -/
theorem C2_error_body :
    (∀ (c : AINews.Client) (method endpoint : String) (ar : Bool)
        (body : Option Json) (params : List (String × Json)) (status : Nat)
        (fields : List (String × Json)), 400 ≤ status →
        AINews.request c method endpoint ar body params
            (constT (.success status (.jsonBody (Json.obj fields)))) =
          ⟨.apiError ⟨(lookupField fields "error").getD
                (Json.str ("HTTP " ++ toString status)),
              (lookupField fields "code").getD Json.null,
              (lookupField fields "details").getD Json.null⟩,
            [⟨method, c.base_url ++ endpoint, AINews.get_headers c ar, body, params⟩]⟩) ∧
    (∀ (c : AINews.Client) (story_id : String) (fields : List (String × Json)),
        lookupField fields "error" = some (Json.str "not found") →
        (AINews.get_story c story_id
            (constT (.success 404 (.jsonBody (Json.obj fields))))).result =
          .apiError ⟨Json.str "not found",
            (lookupField fields "code").getD Json.null,
            (lookupField fields "details").getD Json.null⟩) ∧
    (∀ (creds key : Json) (post_id : String) (status : Nat) (b : HttpBody),
        jsonTruthy creds = true → jget creds "api_key" = some key →
        ¬ status = 200 →
        (Moltbook.get_post (some creds) post_id (constT (.success status b))).result =
          .ret none) := by
  refine ⟨fun c m ep ar body params status fields h =>
    AINews.request_error_body c m ep ar body params status fields h, ?_, ?_⟩
  · intro c sid fields herr
    show (AINews.request c "GET" ("/stories/" ++ sid) false none []
        (constT (.success 404 (.jsonBody (Json.obj fields))))).result = _
    rw [AINews.request_error_body c "GET" ("/stories/" ++ sid) false none [] 404
      fields (by omega)]
    simp [herr]
  · intro creds key pid status b h1 h2 hs
    simp only [Moltbook.get_post, Moltbook.credsKey_some creds key h1 h2, constT]
    rw [if_neg hs]

/-- C2 witness: the amended theorem at a concrete 404 input. -/
theorem C2_error_body_witness :
    (AINews.get_story ⟨"b", Json.null, Json.null⟩ "42"
        (constT (.success 404 (.jsonBody (Json.obj [("error", Json.str "not found")]))))).result =
      .apiError ⟨Json.str "not found", Json.null, Json.null⟩ :=
  C2_error_body.2.1 ⟨"b", Json.null, Json.null⟩ "42"
    [("error", Json.str "not found")] rfl

/-- C4 fails as stated: moltbook's `get_feed` has no exception handler — a
connection-refused fault from the transport propagates raw (the uncaught
`requests.RequestException` itself), with no `NetworkError`-style wrapping. -/
theorem C4_counterexample :
    Moltbook.get_feed (some (Json.obj [("api_key", Json.str "k")])) "hot" 25
        (constT (.exn "ConnectionRefusedError")) =
      ⟨.raise "ConnectionRefusedError",
        [⟨"GET", Moltbook.BASE_URL ++ "/posts",
          Moltbook.get_headers (some (Json.str "k")), none,
          [("sort", Json.str "hot"), ("limit", Json.num 25)]⟩]⟩ := rfl

/-- C4 (amended): `AINewsClient._request` wraps every transport fault as
`AINewsError("Request failed: <cause>")` (the raw `requests` exception never
escapes `_request`); moltbook operations let the raw transport exception
propagate to the caller. -/
theorem C4_transport_fault :
    (∀ (c : AINews.Client) (method endpoint : String) (ar : Bool)
        (body : Option Json) (params : List (String × Json)) (e : String),
        AINews.request c method endpoint ar body params (constT (.exn e)) =
          ⟨.apiError ⟨Json.str ("Request failed: " ++ e), Json.null, Json.null⟩,
            [⟨method, c.base_url ++ endpoint, AINews.get_headers c ar, body, params⟩]⟩) ∧
    (∀ (creds key : Json) (sortv : String) (lim : Int) (e : String),
        jsonTruthy creds = true → jget creds "api_key" = some key →
        Moltbook.get_feed (some creds) sortv lim (constT (.exn e)) =
          ⟨.raise e, [⟨"GET", Moltbook.BASE_URL ++ "/posts",
            Moltbook.get_headers (some key), none,
            [("sort", Json.str sortv), ("limit", Json.num lim)]⟩]⟩) := by
  constructor
  · intro c m ep ar body params e
    rfl
  · intro creds key sortv lim e h1 h2
    simp only [Moltbook.get_feed, Moltbook.credsKey_some creds key h1 h2]
    rfl

/-- C4 witness: the amended theorem at concrete inputs. -/
theorem C4_transport_fault_witness :
    AINews.request ⟨"b", Json.null, Json.null⟩ "GET" "/health" false none []
        (constT (.exn "timeout")) =
      ⟨.apiError ⟨Json.str ("Request failed: " ++ "timeout"), Json.null, Json.null⟩,
        [⟨"GET", "b" ++ "/health", AINews.get_headers ⟨"b", Json.null, Json.null⟩ false,
          none, []⟩]⟩ ∧
    Moltbook.get_feed (some (Json.obj [("api_key", Json.str "k")])) "new" 10
        (constT (.exn "getaddrinfo failed")) =
      ⟨.raise "getaddrinfo failed", [⟨"GET", Moltbook.BASE_URL ++ "/posts",
        Moltbook.get_headers (some (Json.str "k")), none,
        [("sort", Json.str "new"), ("limit", Json.num 10)]⟩]⟩ :=
  ⟨C4_transport_fault.1 ⟨"b", Json.null, Json.null⟩ "GET" "/health" false none [] "timeout",
    C4_transport_fault.2 (Json.obj [("api_key", Json.str "k")]) (Json.str "k")
      "new" 10 "getaddrinfo failed" rfl rfl⟩

/-- `AINewsClient._request` normalizes a 204 response to the success sentinel
before any decode attempt (the body, JSON or not, is never inspected). -/
theorem AINews.request_204 (c : AINews.Client) (method endpoint : String)
    (ar : Bool) (body : Option Json) (params : List (String × Json))
    (b : HttpBody) :
    AINews.request c method endpoint ar body params (constT (.success 204 b)) =
      ⟨.ok (Json.obj [("status", Json.str "success")]),
        [⟨method, c.base_url ++ endpoint, AINews.get_headers c ar, body, params⟩]⟩ :=
  rfl

/-- C3 fails as stated: a moltbook operation (here `upvote_post`) treats a 204
response as a failed status — it prints and returns `None`, not the
`{"status": "success"}` sentinel. -/
theorem C3_counterexample :
    Moltbook.upvote_post (some (Json.obj [("api_key", Json.str "k")])) "42"
        (constT (.success 204 (.jsonBody Json.null))) =
      ⟨.ret none, [⟨"POST", Moltbook.BASE_URL ++ "/posts/42/upvote",
          Moltbook.get_headers (some (Json.str "k")), none, []⟩]⟩ ∧
    Moltbook.MoltResult.ret none ≠
      Moltbook.MoltResult.ret (some (Json.obj [("status", Json.str "success")])) :=
  ⟨rfl, by simp⟩

/-- C3 (amended): every `AINewsClient` operation returns the
`{"status": "success"}` sentinel on a 204 response, whatever the body holds
(no decode is attempted); every moltbook operation instead treats 204 as a
failure status and returns `None`.  (`post_story` is taken past its local
validation, `verify` past its argument check with a well-formed or absent
credentials file, and the moltbook operations with truthy credentials
carrying an `api_key`.) -/
theorem C3_status_204 :
    ∀ (b : HttpBody) (c : AINews.Client) (page per lim : Int)
      (sid title name now handle sortv q pid sub ctext : String)
      (content url jn vc creds key parent : Json) (sv : Bool) (fs fs2 : Option Json),
      jsonTruthy content = true → jsonTruthy jn = true → jsonTruthy vc = true →
      (fs = none ∨ ∃ fields, fs = some (Json.obj fields)) →
      jsonTruthy creds = true → jget creds "api_key" = some key →
      ((AINews.health c (constT (.success 204 b))).result =
          .ok (Json.obj [("status", Json.str "success")])) ∧
      ((AINews.get_stories c page per (constT (.success 204 b))).result =
          .ok (Json.obj [("status", Json.str "success")])) ∧
      ((AINews.get_story c sid (constT (.success 204 b))).result =
          .ok (Json.obj [("status", Json.str "success")])) ∧
      ((AINews.upvote_story c sid (constT (.success 204 b))).result =
          .ok (Json.obj [("status", Json.str "success")])) ∧
      ((AINews.post_story c title content url (constT (.success 204 b))).result =
          .ok (Json.obj [("status", Json.str "success")])) ∧
      ((AINews.verify c handle jn vc fs (constT (.success 204 b))).result =
          .ok (Json.obj [("status", Json.str "success")])) ∧
      ((AINews.register c name sv fs now (constT (.success 204 b))).result =
          .ok (Json.obj [("status", Json.str "success")])) ∧
      ((Moltbook.register fs2 now (constT (.success 204 b))).1.result = .ret none) ∧
      ((Moltbook.check_status (some creds) (constT (.success 204 b))).result = .ret none) ∧
      ((Moltbook.get_feed (some creds) sortv lim (constT (.success 204 b))).result = .ret none) ∧
      ((Moltbook.get_post (some creds) pid (constT (.success 204 b))).result = .ret none) ∧
      ((Moltbook.search_posts (some creds) q lim (constT (.success 204 b))).result = .ret none) ∧
      ((Moltbook.get_submolts (some creds) (constT (.success 204 b))).result = .ret none) ∧
      ((Moltbook.get_my_profile (some creds) (constT (.success 204 b))).result = .ret none) ∧
      ((Moltbook.create_post (some creds) sub title content url
          (constT (.success 204 b))).result = .ret none) ∧
      ((Moltbook.add_comment (some creds) pid ctext parent
          (constT (.success 204 b))).result = .ret none) ∧
      ((Moltbook.upvote_post (some creds) pid (constT (.success 204 b))).result = .ret none) := by
  intro b c page per lim sid title name now handle sortv q pid sub ctext
    content url jn vc creds key parent sv fs fs2 hcontent hjn hvc hfs hcreds hkey
  refine ⟨rfl, rfl, rfl, rfl, ?ps, ?vf, ?rg, ?mrg, ?mcs, ?mgf, ?mgp, ?msp,
    ?msm, ?mpf, ?mcp, ?mac, ?mup⟩
  · simp [AINews.post_story, hcontent, AINews.request_204]
  · rcases hfs with rfl | ⟨fields, rfl⟩ <;>
      simp [AINews.verify, hjn, hvc, AINews.request_204, jset]
  · simp [AINews.register, AINews.request_204, jget, lookupField, jsonTruthy,
      Bool.and_false]
  · rfl
  · simp only [Moltbook.check_status, Moltbook.credsKey_some creds key hcreds hkey]
    rfl
  · simp only [Moltbook.get_feed, Moltbook.credsKey_some creds key hcreds hkey]
    rfl
  · simp only [Moltbook.get_post, Moltbook.credsKey_some creds key hcreds hkey]
    rfl
  · simp only [Moltbook.search_posts, Moltbook.credsKey_some creds key hcreds hkey]
    rfl
  · simp only [Moltbook.get_submolts, Moltbook.credsKey_some creds key hcreds hkey]
    rfl
  · simp only [Moltbook.get_my_profile, Moltbook.credsKey_some creds key hcreds hkey]
    rfl
  · simp only [Moltbook.create_post, Moltbook.credsKey_some creds key hcreds hkey]
    rfl
  · simp only [Moltbook.add_comment, Moltbook.credsKey_some creds key hcreds hkey]
    rfl
  · simp only [Moltbook.upvote_post, Moltbook.credsKey_some creds key hcreds hkey]
    rfl

/-- C3 witness: the amended theorem at concrete inputs (the `verify`
component, with an existing well-formed credentials file). -/
theorem C3_status_204_witness :
    (AINews.verify ⟨"b", Json.null, Json.null⟩ "h" (Json.str "N") (Json.str "C")
        (some (Json.obj [("api_key", Json.str "K")]))
        (constT (.success 204 (.textBody "")))).result =
      .ok (Json.obj [("status", Json.str "success")]) :=
  (C3_status_204 (.textBody "") ⟨"b", Json.null, Json.null⟩ 1 30 25 "s" "T" "N"
    "now" "h" "hot" "q" "42" "m" "c" (Json.str "x") Json.null (Json.str "N")
    (Json.str "C") (Json.obj [("api_key", Json.str "k")]) (Json.str "k")
    Json.null true (some (Json.obj [("api_key", Json.str "K")])) none
    rfl rfl rfl (Or.inr ⟨[("api_key", Json.str "K")], rfl⟩) rfl rfl).2.2.2.2.2.1

/-- C5 fails as stated: constructed with no explicit key and no environment
variable, the client's API key is `None` — `__init__` never falls back to the
Credential Store (the spec-worded resolution `specApiKeyResolution` would
produce the stored key).  The store is consulted only by the separate
`from_credentials` classmethod, which passes the stored key as the explicit
argument. -/
theorem C5_counterexample :
    (AINews.init Json.null none Json.null ⟨none, none⟩).api_key = Json.null ∧
    AINews.specApiKeyResolution Json.null none (Json.str "stored-key") =
      Json.str "stored-key" ∧
    Json.null ≠ Json.str "stored-key" :=
  ⟨rfl, rfl, by simp⟩

/-- C5 (amended): construction resolves the base URL as the explicit argument
when truthy (non-`None`, non-empty), else the environment variable when set,
else the hard-coded default; and the API key as the explicit argument when
truthy, else the environment variable, with NO Credential-Store fallback
(`None` when both are absent).  An authenticated request carries the
`X-API-Key` header exactly when auth is required and the resolved key is
truthy. -/
theorem C5_construction :
    (∀ (api_key jn : Json) (s : String) (env : AINews.Env), ¬ s = "" →
        (AINews.init api_key (some s) jn env).base_url = s) ∧
    (∀ (api_key jn : Json) (barg : Option String) (v : String)
        (envKey : Option String), (barg = none ∨ barg = some "") →
        (AINews.init api_key barg jn ⟨some v, envKey⟩).base_url = v) ∧
    (∀ (api_key jn : Json) (barg : Option String) (envKey : Option String),
        (barg = none ∨ barg = some "") →
        (AINews.init api_key barg jn ⟨none, envKey⟩).base_url =
          AINews.DEFAULT_BASE_URL) ∧
    (∀ (api_key jn : Json) (barg : Option String) (env : AINews.Env),
        jsonTruthy api_key = true →
        (AINews.init api_key barg jn env).api_key = api_key) ∧
    (∀ (api_key jn : Json) (barg : Option String) (s : String)
        (envUrl : Option String), jsonTruthy api_key = false →
        (AINews.init api_key barg jn ⟨envUrl, some s⟩).api_key = Json.str s) ∧
    (∀ (api_key jn : Json) (barg : Option String) (envUrl : Option String),
        jsonTruthy api_key = false →
        (AINews.init api_key barg jn ⟨envUrl, none⟩).api_key = Json.null) ∧
    (∀ (c : AINews.Client) (ar : Bool),
        ("X-API-Key" ∈ (AINews.get_headers c ar).map Prod.fst) ↔
          (ar = true ∧ jsonTruthy c.api_key = true)) := by
  refine ⟨?bu1, ?bu2, ?bu3, ?ak1, ?ak2, ?ak3, ?hdr⟩
  · intro api_key jn s env h
    simp [AINews.init, h]
  · intro api_key jn barg v envKey h
    rcases h with rfl | rfl <;> simp [AINews.init]
  · intro api_key jn barg envKey h
    rcases h with rfl | rfl <;> simp [AINews.init]
  · intro api_key jn barg env h
    simp [AINews.init, h]
  · intro api_key jn barg s envUrl h
    simp [AINews.init, h]
  · intro api_key jn barg envUrl h
    simp [AINews.init, h]
  · intro c ar
    by_cases h : (ar && jsonTruthy c.api_key) = true
    · rw [Bool.and_eq_true] at h
      simp [AINews.get_headers, h.1, h.2]
    · rw [Bool.and_eq_true] at h
      rcases Decidable.not_and_iff_or_not.mp h with h' | h' <;>
        simp [AINews.get_headers, Bool.and_eq_true, h']

/-- C5 witness: the amended theorem at concrete inputs — no explicit key and
no environment variable leave the key `None`. -/
theorem C5_construction_witness :
    (AINews.init Json.null none Json.null ⟨none, none⟩).api_key = Json.null :=
  C5_construction.2.2.2.2.2.1 Json.null Json.null none none rfl

/-- Setting one key leaves every other key's lookup unchanged. -/
theorem lookupField_setField_ne : ∀ (fields : List (String × Json)) (k k' : String)
    (v : Json), ¬ k' = k →
    lookupField (setField fields k v) k' = lookupField fields k'
  | [], k, k', v, h => by
      simp only [setField, lookupField]
      rw [if_neg (fun hh => h hh.symm)]
  | (k0, v0) :: rest, k, k', v, h => by
      simp only [setField]
      by_cases h0 : k0 = k
      · subst h0
        simp only [lookupField, if_pos rfl]
        rw [if_neg (fun hh => h hh.symm), if_neg (fun hh => h hh.symm)]
      · rw [if_neg h0]
        simp only [lookupField]
        by_cases h1 : k0 = k'
        · rw [if_pos h1, if_pos h1]
        · rw [if_neg h1, if_neg h1, lookupField_setField_ne rest k k' v h]

/-- Setting a key makes its lookup the new value. -/
theorem lookupField_setField_self : ∀ (fields : List (String × Json)) (k : String)
    (v : Json), lookupField (setField fields k v) k = some v
  | [], k, v => by simp [setField, lookupField]
  | (k0, v0) :: rest, k, v => by
      simp only [setField]
      by_cases h0 : k0 = k
      · subst h0
        simp [lookupField]
      · rw [if_neg h0]
        simp only [lookupField]
        rw [if_neg h0, lookupField_setField_self rest k v]

/-- Inversion of a successful `verify`: the credentials file afterwards is
absent when it was absent, and is the in-place update (set `verified`, set
`twitter_handle`) when it held an object. -/
theorem AINews.verify_ok_fs (c : AINews.Client) (handle : String) (jn vc : Json)
    (fs : Option Json) (t : HttpRequest → TransportResult) (resp : Json)
    (fs' : Option Json) (tr : List HttpRequest)
    (h : AINews.verify c handle jn vc fs t = ⟨.ok resp, fs', tr⟩) :
    (fs = none → fs' = none) ∧
    (∀ fields, fs = some (Json.obj fields) →
      fs' = some (Json.obj (setField (setField fields "verified" (Json.bool true))
        "twitter_handle" (Json.str (AINews.lstripAt handle))))) := by
  constructor
  · intro hfs
    subst hfs
    simp only [AINews.verify] at h
    repeat' split at h
    all_goals simp_all
  · intro fields hfs
    subst hfs
    simp only [AINews.verify, jset] at h
    repeat' split at h
    all_goals simp_all

/-- C6: the load-modify-store update a successful `verify` performs on an
existing credentials document overwrites only `verified` (set to `true`) and
`twitter_handle` (the stripped handle); every other key — `api_key`,
`journalist_name`, `journalist_id`, `verification_code`, `registered_at`,
`base_url`, and any other — keeps its prior value in the written-back file. -/
theorem C6_verify_update_frame :
    ∀ (c : AINews.Client) (handle : String) (jn vc : Json)
      (fields : List (String × Json)) (t : HttpRequest → TransportResult)
      (resp : Json) (fs' : Option Json) (tr : List HttpRequest),
      AINews.verify c handle jn vc (some (Json.obj fields)) t = ⟨.ok resp, fs', tr⟩ →
      ∃ fields', fs' = some (Json.obj fields') ∧
        (∀ k, ¬ k = "verified" → ¬ k = "twitter_handle" →
          lookupField fields' k = lookupField fields k) ∧
        lookupField fields' "verified" = some (Json.bool true) ∧
        lookupField fields' "twitter_handle" =
          some (Json.str (AINews.lstripAt handle)) := by
  intro c handle jn vc fields t resp fs' tr h
  obtain ⟨-, h2⟩ := AINews.verify_ok_fs c handle jn vc _ t resp fs' tr h
  refine ⟨_, h2 fields rfl, ?_, ?_, ?_⟩
  · intro k hk1 hk2
    rw [lookupField_setField_ne _ _ _ _ hk2, lookupField_setField_ne _ _ _ _ hk1]
  · rw [lookupField_setField_ne _ _ _ _ (by decide), lookupField_setField_self]
  · rw [lookupField_setField_self]

/-- C6 witness: the frame property at a concrete successful run. -/
theorem C6_verify_update_frame_witness :
    ∃ fields', (some (Json.obj [("api_key", Json.str "K"),
          ("verified", Json.bool true),
          ("twitter_handle", Json.str (AINews.lstripAt "@me"))]) : Option Json) =
        some (Json.obj fields') ∧
      (∀ k, ¬ k = "verified" → ¬ k = "twitter_handle" →
        lookupField fields' k = lookupField [("api_key", Json.str "K")] k) ∧
      lookupField fields' "verified" = some (Json.bool true) ∧
      lookupField fields' "twitter_handle" =
        some (Json.str (AINews.lstripAt "@me")) :=
  C6_verify_update_frame ⟨"b", Json.null, Json.null⟩ "@me" (Json.str "N")
    (Json.str "C") [("api_key", Json.str "K")]
    (constT (.success 200 (.jsonBody (Json.obj [])))) (Json.obj [])
    (some (Json.obj [("api_key", Json.str "K"), ("verified", Json.bool true),
      ("twitter_handle", Json.str (AINews.lstripAt "@me"))]))
    [⟨"POST", "b" ++ "/journalists/verify",
      AINews.get_headers ⟨"b", Json.null, Json.null⟩ false,
      some (Json.obj [("journalist_name", Json.str "N"),
        ("verification_code", Json.str "C"),
        ("twitter_handle", Json.str (AINews.lstripAt "@me"))]), []⟩] rfl

/-- C9: when `verify`'s HTTP call succeeds, `verified = true` is persisted iff
the credentials file exists at the moment of the call (an existing dict
document is rewritten with `verified := true` and the handle appended, by
local control flow alone — the update is the same whatever the transport and
whatever the success body `resp`); when the file is absent, the success is
silently not persisted. -/
theorem C9_verify_persistence :
    ∀ (c : AINews.Client) (handle : String) (jn vc : Json) (fs : Option Json)
      (t : HttpRequest → TransportResult) (resp : Json) (fs' : Option Json)
      (tr : List HttpRequest),
      AINews.verify c handle jn vc fs t = ⟨.ok resp, fs', tr⟩ →
      (fs = none → fs' = none) ∧
      (∀ fields, fs = some (Json.obj fields) →
        fs' = some (Json.obj (setField (setField fields "verified" (Json.bool true))
          "twitter_handle" (Json.str (AINews.lstripAt handle))))) :=
  fun c handle jn vc fs t resp fs' tr h =>
    AINews.verify_ok_fs c handle jn vc fs t resp fs' tr h

/-- C9 witness: a successful verify with no credentials file persists
nothing. -/
theorem C9_verify_persistence_witness :
    ((none : Option Json) = none → (none : Option Json) = none) ∧
    (∀ fields, (none : Option Json) = some (Json.obj fields) →
      (none : Option Json) = some (Json.obj (setField (setField fields "verified"
        (Json.bool true)) "twitter_handle" (Json.str (AINews.lstripAt "@me"))))) :=
  C9_verify_persistence ⟨"b", Json.null, Json.null⟩ "@me" (Json.str "N")
    (Json.str "C") none (constT (.success 200 (.jsonBody (Json.obj []))))
    (Json.obj []) none
    [⟨"POST", "b" ++ "/journalists/verify",
      AINews.get_headers ⟨"b", Json.null, Json.null⟩ false,
      some (Json.obj [("journalist_name", Json.str "N"),
        ("verification_code", Json.str "C"),
        ("twitter_handle", Json.str (AINews.lstripAt "@me"))]), []⟩] rfl

/-- `_request` hands exactly one request, with the given method, URL, headers
and payload, to the transport, whatever the outcome. -/
theorem AINews.request_trace (c : AINews.Client) (method endpoint : String)
    (ar : Bool) (body : Option Json) (params : List (String × Json))
    (t : HttpRequest → TransportResult) :
    (AINews.request c method endpoint ar body params t).trace =
      [⟨method, c.base_url ++ endpoint, AINews.get_headers c ar, body, params⟩] := by
  simp only [AINews.request]
  split
  · rfl
  · split
    · rfl
    · split
      · split <;> rfl
      · rfl

/-- All leading `'@'` characters of the argument of `lstrip("@")` are
removed. -/
theorem lstrip_decomp : ∀ (l : List Char),
    ∃ n, l = List.replicate n '@' ++ l.dropWhile (fun c => c == '@')
  | [] => ⟨0, rfl⟩
  | c :: l => by
      by_cases h : c = '@'
      · subst h
        obtain ⟨n, hn⟩ := lstrip_decomp l
        refine ⟨n + 1, ?_⟩
        rw [List.dropWhile_cons]
        simp only [beq_self_eq_true, if_true, reduceIte]
        rw [List.replicate_succ, List.cons_append, ← hn]
      · refine ⟨0, ?_⟩
        rw [List.dropWhile_cons]
        simp [h]

/-- The result of `lstrip("@")` never starts with `'@'`. -/
theorem lstrip_head : ∀ (l : List Char),
    ¬ (l.dropWhile (fun c => c == '@')).head? = some '@'
  | [] => by simp
  | c :: l => by
      by_cases h : c = '@'
      · subst h
        rw [List.dropWhile_cons]
        simp only [beq_self_eq_true, if_true, reduceIte]
        exact lstrip_head l
      · rw [List.dropWhile_cons]
        simp [h]

/-- `verify` (past its argument check) issues exactly one request whose
payload carries the stripped handle. -/
theorem AINews.verify_trace (c : AINews.Client) (handle : String) (jn vc : Json)
    (fs : Option Json) (t : HttpRequest → TransportResult)
    (hjn : jsonTruthy jn = true) (hvc : jsonTruthy vc = true) :
    (AINews.verify c handle jn vc fs t).trace =
      [⟨"POST", c.base_url ++ "/journalists/verify", AINews.get_headers c false,
        some (Json.obj [("journalist_name", jn), ("verification_code", vc),
          ("twitter_handle", Json.str (AINews.lstripAt handle))]), []⟩] := by
  have ht := AINews.request_trace c "POST" "/journalists/verify" false
    (some (Json.obj [("journalist_name", jn), ("verification_code", vc),
      ("twitter_handle", Json.str (AINews.lstripAt handle))])) [] t
  simp only [AINews.verify, hjn, hvc, Bool.not_true, Bool.or_self,
    Bool.false_eq_true, if_false]
  rcases hreq : AINews.request c "POST" "/journalists/verify" false
      (some (Json.obj [("journalist_name", jn), ("verification_code", vc),
        ("twitter_handle", Json.str (AINews.lstripAt handle))])) [] t with ⟨res, tr2⟩
  rw [hreq] at ht
  cases res with
  | ok resp =>
      cases fs with
      | none => exact ht
      | some creds =>
          dsimp only
          rcases hj : jset creds "verified" (Json.bool true) with _ | c1
          · exact ht
          · dsimp only
            rcases hj2 : jset c1 "twitter_handle" (Json.str (AINews.lstripAt handle))
              with _ | c2 <;> exact ht
  | apiError e => exact ht
  | pyRaise e => exact ht

/-- C10: `verify` strips every leading `'@'` (not just one) from the handle
before placing it in the request payload and before storing it: the payload's
and the stored `twitter_handle` equal `lstrip`ped handle, the original handle
is some number of `'@'`s followed by it, and it never begins with `'@'`. -/
theorem C10_handle_stripping :
    ∀ (c : AINews.Client) (handle : String) (jn vc : Json) (fs : Option Json)
      (t : HttpRequest → TransportResult),
      jsonTruthy jn = true → jsonTruthy vc = true →
      ((AINews.verify c handle jn vc fs t).trace =
        [⟨"POST", c.base_url ++ "/journalists/verify", AINews.get_headers c false,
          some (Json.obj [("journalist_name", jn), ("verification_code", vc),
            ("twitter_handle", Json.str (AINews.lstripAt handle))]), []⟩]) ∧
      (∀ (fields : List (String × Json)) (resp : Json) (fs' : Option Json)
          (tr : List HttpRequest),
          AINews.verify c handle jn vc (some (Json.obj fields)) t = ⟨.ok resp, fs', tr⟩ →
          ∃ fields', fs' = some (Json.obj fields') ∧
            lookupField fields' "twitter_handle" =
              some (Json.str (AINews.lstripAt handle))) ∧
      (∃ n, handle.data = List.replicate n '@' ++ (AINews.lstripAt handle).data) ∧
      ¬ (AINews.lstripAt handle).data.head? = some '@' := by
  intro c handle jn vc fs t hjn hvc
  refine ⟨AINews.verify_trace c handle jn vc fs t hjn hvc, ?_, ?_, ?_⟩
  · intro fields resp fs' tr h
    obtain ⟨-, h2⟩ := AINews.verify_ok_fs c handle jn vc _ t resp fs' tr h
    exact ⟨_, h2 fields rfl, lookupField_setField_self _ _ _⟩
  · exact lstrip_decomp handle.data
  · exact lstrip_head handle.data

/-- C10 witness: a handle with two leading `'@'`s is fully stripped. -/
theorem C10_handle_stripping_witness :
    (∃ n, "@@molty".data = List.replicate n '@' ++ (AINews.lstripAt "@@molty").data) ∧
    ¬ (AINews.lstripAt "@@molty").data.head? = some '@' :=
  (C10_handle_stripping ⟨"b", Json.null, Json.null⟩ "@@molty" (Json.str "N")
    (Json.str "C") none (constT (.success 200 (.jsonBody Json.null))) rfl rfl).2.2
